import Mathlib

/-!
Verification of `OdysseyMaker_app.py` (schema-enforcement and generation
pipeline).  Each Python function relevant to the verified properties is
embedded as a Lean definition over an explicit JSON value type; stateful
Python code (in-place mutation, Streamlit session state) is embedded as
explicit state passing.
-/

namespace OdysseyMaker

/-- A JSON value, as handled by `json.loads`/`json.dumps` in the source.
Objects are ordered key/value lists, mirroring Python's insertion-ordered
`dict`; numbers are modelled as integers (the schemas the program feeds to
the adapter contain only integer numerals). -/
inductive Json where
  | null
  | bool (b : Bool)
  | num (n : Int)
  | str (s : String)
  | arr (elems : List Json)
  | obj (members : List (String × Json))

/-- `d.get(key)` on a Python dict: the value at the first (unique, for real
dicts) occurrence of `key`, or `None`. -/
def lookup : List (String × Json) → String → Option Json
  | [], _ => none
  | (k, v) :: rest, key => if k = key then some v else lookup rest key

/-- `d[key] = v` on a Python dict: overwrite the value in place if the key is
present, otherwise append the new binding at the end (insertion order). -/
def setKey : List (String × Json) → String → Json → List (String × Json)
  | [], key, v => [(key, v)]
  | (k, w) :: rest, key, v =>
      if k = key then (key, v) :: rest else (k, w) :: setKey rest key v

/-- Python's `sorted` on a list of strings: ascending lexicographic order by
code point (Lean's linear order on `String`). -/
def sortStrs (l : List String) : List String :=
  List.insertionSort (· ≤ ·) l

/-- The value `sorted(list(props.keys()))` that the adapter stores under
`"required"`, as a JSON array of strings. -/
def requiredOf (props : List (String × Json)) : Json :=
  Json.arr ((sortStrs (props.map Prod.fst)).map Json.str)

/-- `node.get("type") == "object"` (a missing or non-string `"type"` compares
unequal to the string `"object"`). -/
def typeIsObject (kvs : List (String × Json)) : Bool :=
  match lookup kvs "type" with
  | some (Json.str t) => t == "object"
  | _ => false

/-- `props = node.get("properties", {})` followed by the
`isinstance(props, dict)` test: the members of the `"properties"` value when
that value is a mapping, otherwise `none`. -/
def propsOf (kvs : List (String × Json)) : Option (List (String × Json)) :=
  match lookup kvs "properties" with
  | some (Json.obj props) => some props
  | _ => none

/-- The per-node patch step of `enforce_openai_strict_schema.walk`: if
`node.get("type") == "object"` and `node.get("properties", {})` is a
non-empty dict, set `additionalProperties` to `false` and `required` to the
sorted property names; otherwise leave the members unchanged. -/
def patchNode (kvs : List (String × Json)) : List (String × Json) :=
  if typeIsObject kvs then
    match propsOf kvs with
    | some props =>
        if props.isEmpty then kvs
        else
          setKey (setKey kvs "additionalProperties" (Json.bool false))
            "required" (requiredOf props)
    | none => kvs
  else kvs

mutual

/-- The recursive `walk` of `enforce_openai_strict_schema`: recurse into every
value of every dict and every element of every list first, then patch the
current node.  (The Python code mutates in place; here the mutated value is
returned.) -/
def walk : Json → Json
  | Json.null => Json.null
  | Json.bool b => Json.bool b
  | Json.num n => Json.num n
  | Json.str s => Json.str s
  | Json.arr es => Json.arr (walkList es)
  | Json.obj ms => Json.obj (patchNode (walkMembers ms))

/-- `walk` over the elements of a JSON array. -/
def walkList : List Json → List Json
  | [] => []
  | e :: es => walk e :: walkList es

/-- `walk` over the values of a JSON object. -/
def walkMembers : List (String × Json) → List (String × Json)
  | [] => []
  | (k, v) :: ms => (k, walk v) :: walkMembers ms

end

mutual

/-- `json.loads(json.dumps(schema))`: a deep, freshly-allocated copy of a
JSON-shaped value; at the level of values it rebuilds the tree node by node. -/
def deepCopy : Json → Json
  | Json.null => Json.null
  | Json.bool b => Json.bool b
  | Json.num n => Json.num n
  | Json.str s => Json.str s
  | Json.arr es => Json.arr (deepCopyList es)
  | Json.obj ms => Json.obj (deepCopyMembers ms)

/-- `deepCopy` over array elements. -/
def deepCopyList : List Json → List Json
  | [] => []
  | e :: es => deepCopy e :: deepCopyList es

/-- `deepCopy` over object members. -/
def deepCopyMembers : List (String × Json) → List (String × Json)
  | [] => []
  | (k, v) :: ms => (k, deepCopy v) :: deepCopyMembers ms

end

/-- `enforce_openai_strict_schema`: deep-copy the input via a JSON round
trip, walk/patch the copy, and return it. -/
def enforce_openai_strict_schema (schema : Json) : Json :=
  walk (deepCopy schema)

/-- State-passing embedding of a call `enforce_openai_strict_schema(schema)`:
the first component is the returned (patched) value, the second is the
caller's `schema` object after the call.  The body mutates only
`schema_copy`, a fresh deep copy sharing no node with the input, so the
post-call value of the input is the pre-call one. -/
def enforce_call (schema : Json) : Json × Json :=
  let schema_copy := deepCopy schema
  (walk schema_copy, schema)

/-- Extract the underlying strings of a JSON array of strings: `some l` iff
the list is exactly `l.map Json.str`; `none` if any element is not a string. -/
def asStrList : List Json → Option (List String)
  | [] => some []
  | Json.str s :: rest => (asStrList rest).map (s :: ·)
  | _ => none

/-- The patch condition (`node["type"] == "object"` with a non-empty dict of
`properties`) on the members of an object node. -/
def isObjectWithProps (kvs : List (String × Json)) : Bool :=
  typeIsObject kvs &&
  (match propsOf kvs with
   | some props => !props.isEmpty
   | none => false)

/-- Whether a single object node satisfies the strictness contract: if its
`"type"` is `"object"` and its `"properties"` is a non-empty mapping, then
its `"additionalProperties"` is `false` and its `"required"` is exactly the
sorted list of its property names. -/
def strictNodeOK (kvs : List (String × Json)) : Bool :=
  if isObjectWithProps kvs then
    match propsOf kvs with
    | some props =>
        (match lookup kvs "additionalProperties" with
         | some (Json.bool false) => true
         | _ => false) &&
        (match lookup kvs "required" with
         | some (Json.arr req) =>
             asStrList req = some (sortStrs (props.map Prod.fst))
         | _ => false)
    | none => false
  else true

mutual

/-- The strictness contract, recursively at every node: every object node
with non-empty `properties` (anywhere — inside every value of every mapping
and every element of every sequence) satisfies `strictNodeOK`. -/
def StrictOK : Json → Bool
  | Json.null => true
  | Json.bool _ => true
  | Json.num _ => true
  | Json.str _ => true
  | Json.arr es => StrictOKList es
  | Json.obj ms => strictNodeOK ms && StrictOKMembers ms

/-- `StrictOK` for each element of a JSON array. -/
def StrictOKList : List Json → Bool
  | [] => true
  | e :: es => StrictOK e && StrictOKList es

/-- `StrictOK` for each value of a JSON object. -/
def StrictOKMembers : List (String × Json) → Bool
  | [] => true
  | (_, v) :: ms => StrictOK v && StrictOKMembers ms

end

mutual

/-- Whether some node of the value (itself included) satisfies the patch
condition — i.e. whether the adapter's walk rewrites anything at all. -/
def hasPatchTarget : Json → Bool
  | Json.null => false
  | Json.bool _ => false
  | Json.num _ => false
  | Json.str _ => false
  | Json.arr es => hasPatchTargetList es
  | Json.obj ms => isObjectWithProps ms || hasPatchTargetMembers ms

/-- `hasPatchTarget` over array elements. -/
def hasPatchTargetList : List Json → Bool
  | [] => false
  | e :: es => hasPatchTarget e || hasPatchTargetList es

/-- `hasPatchTarget` over object values. -/
def hasPatchTargetMembers : List (String × Json) → Bool
  | [] => false
  | (_, v) :: ms => hasPatchTarget v || hasPatchTargetMembers ms

end

/-! ### Generation client: `_extract_output_text` and `generate_json_schema`

The upstream response object is embedded structurally: an ordered list of
output items, each with a `type` tag and a list of content blocks, each with
a `type` tag and a `text` payload.  The network call itself is external; the
response is the model's input. -/

/-- One content block of an output item (`c.type`, `c.text`). -/
structure ContentBlock where
  type : String
  text : String
deriving DecidableEq

/-- One output item of a response (`item.type`, `item.content`). -/
structure OutputItem where
  type : String
  content : List ContentBlock
deriving DecidableEq

/-- An upstream response (`resp.output`). -/
structure UpstreamResponse where
  output : List OutputItem
deriving DecidableEq

/-- The inner loop of `_extract_output_text`: the `text` of the first content
block whose `type` is `"output_text"`, if any (the loop `break`s there). -/
def firstOutputText : List ContentBlock → Option String
  | [] => none
  | c :: rest =>
      if c.type = "output_text" then some c.text else firstOutputText rest

/-- The outer loop of `_extract_output_text`, threading the mutable
`out_text` variable: for each item whose `type` is `"message"`, overwrite
`out_text` with the first `output_text` block's text when one exists (the
outer loop has no `break`, so later message items overwrite earlier ones). -/
def extractLoop (acc : Option String) : List OutputItem → Option String
  | [] => acc
  | item :: rest =>
      extractLoop
        (if item.type = "message" then
          match firstOutputText item.content with
          | some t => some t
          | none => acc
         else acc)
        rest

/-- `_extract_output_text(resp)`: run the loops, then `if not out_text:
raise RuntimeError(...)` — which fires both when `out_text` is still `None`
and when it is the (falsy) empty string. -/
def extract_output_text (resp : UpstreamResponse) : Except String String :=
  match extractLoop none resp.output with
  | some t =>
      if t = "" then Except.error "No output_text found in model response."
      else Except.ok t
  | none => Except.error "No output_text found in model response."

/-- `generate_json_schema` after the (external) network call: parse the
extracted text with `json.loads`.  The parser is the Python standard
library's, external to this program, so it is passed as a function;
a `Except.error` result of `loads` is a raised `JSONDecodeError`. -/
def generate_json_schema (loads : String → Except String Json)
    (resp : UpstreamResponse) : Except String Json :=
  match extract_output_text resp with
  | Except.ok t => loads t
  | Except.error e => Except.error e

/-- Specification-side description of what the code extracts: among the
message-typed items, each contributes the text of its first `output_text`
block (when it has one); the code keeps the last contribution. -/
def lastMessageText (output : List OutputItem) : Option String :=
  ((output.filter (fun item => item.type = "message")).filterMap
    (fun item => firstOutputText item.content)).getLast?

/-! ### Quota-error detection (`is_quota_error`) -/

/-- `needle` occurs at the head of `hay` (over code points). -/
def charsStartWith : List Char → List Char → Bool
  | [], _ => true
  | _ :: _, [] => false
  | a :: as, b :: bs => a = b && charsStartWith as bs

/-- Python's `needle in hay` on strings: `needle` occurs as a contiguous
substring of `hay` (over code points; the empty needle always occurs). -/
def charsContain (needle : List Char) : List Char → Bool
  | [] => charsStartWith needle []
  | b :: bs => charsStartWith needle (b :: bs) || charsContain needle bs

/-- Python's `sub in msg` for strings. -/
def strContains (msg sub : String) : Bool :=
  charsContain sub.toList msg.toList

/-- `is_quota_error(e)`: the stringified error contains
`"insufficient_quota"` or `"exceeded your current quota"`.  The exception is
embedded by its message `str(e)`. -/
def is_quota_error (msg : String) : Bool :=
  strContains msg "insufficient_quota" ||
  strContains msg "exceeded your current quota"

/-! ### Domain schemas (the pydantic models)

Enumerated `Literal` fields are embedded as their runtime string values;
membership in the enumeration is checked by the request validator below,
mirroring pydantic validation at construction. -/

/-- `OutlineRequest` (field values; the declared constraints are checked by
`mkOutlineRequest`). -/
structure OutlineRequest where
  concept : String
  party_level_start : Int
  party_level_end : Int
  ruleset : String
  leveling_mode : String
  tone : String
  theme : String
  session_count_target : Int
  constraints : List String
  include_travel : Bool
deriving DecidableEq

/-- `KeyNPC`. -/
structure KeyNPC where
  name : String
  role : String
  public_face : String
  secret : String
  leverage : String
deriving DecidableEq

/-- `Faction`. -/
structure Faction where
  name : String
  goal : String
  method : String
  complication : String
deriving DecidableEq

/-- `StoryBeat`. -/
structure StoryBeat where
  beat_id : String
  title : String
  purpose : String
  stakes : String
  twist_or_reveal : String
deriving DecidableEq

/-- `AdventureOutline`. -/
structure AdventureOutline where
  title : String
  logline : String
  central_conflict : String
  villain_or_antagonist : String
  themes : List String
  hooks : List String
  key_npcs : List KeyNPC
  factions : List Faction
  beats : List StoryBeat
  continuity_promises : List String
deriving DecidableEq

/-- `Encounter` (`type` is one of
combat|social|exploration|puzzle|skill_challenge). -/
structure Encounter where
  encounter_id : String
  type : String
  difficulty : String
  summary : String
  win_condition : String
  fail_forward : String
  setup : List String
  scaling_notes : List String
deriving DecidableEq

/-- `Scene`. -/
structure Scene where
  scene_id : String
  title : String
  location : String
  goal : String
  boxed_text : String
  obstacles : List String
  encounters : List Encounter
  clues_and_info : List String
  rewards : List String
  consequences : List String
  links_to_beats : List String
  estimated_minutes : Int
deriving DecidableEq

/-- `LevelProgressionStep`. -/
structure LevelProgressionStep where
  step_id : String
  after_scene_id : String
  level : Int
  rationale : String
  optional_side_objectives : List String
deriving DecidableEq

/-- `DetailedAdventureOutline`. -/
structure DetailedAdventureOutline where
  outline_title : String
  structure_notes : List String
  scenes : List Scene
  level_progression : List LevelProgressionStep
  optional_side_quests : List String
  recap_questions : List String
deriving DecidableEq

/-- `OutlineResponse`. -/
structure OutlineResponse where
  outline : AdventureOutline
  detailed : DetailedAdventureOutline
deriving DecidableEq

/-! ### Request validation (pydantic field constraints, `OutlineRequest`) -/

/-- The `Tone` enumeration. -/
def toneValues : List String :=
  ["grimdark", "heroic", "whimsical", "horror", "mystery", "epic"]

/-- The `Theme` enumeration. -/
def themeValues : List String :=
  ["fey", "undead", "dragons", "political", "heist", "cosmic", "wilderness",
   "dungeon", "urban"]

/-- The `Ruleset` enumeration. -/
def rulesetValues : List String := ["5e", "system_agnostic"]

/-- The `LevelingMode` enumeration. -/
def levelingModeValues : List String := ["milestone", "xp"]

/-- Construction of an `OutlineRequest`, with pydantic's declared field
validation: `concept` has `min_length=10`; the two party levels and
`session_count_target` lie in `1..20`; the four `Literal` fields belong to
their enumerations.  No relation between `party_level_start` and
`party_level_end` is declared, so none is checked.  Validation happens at
construction, before any network call. -/
def mkOutlineRequest (concept : String) (party_level_start party_level_end : Int)
    (ruleset leveling_mode tone theme : String) (session_count_target : Int)
    (constraints : List String) (include_travel : Bool) :
    Except String OutlineRequest :=
  if 10 ≤ concept.length ∧
     (1 ≤ party_level_start ∧ party_level_start ≤ 20) ∧
     (1 ≤ party_level_end ∧ party_level_end ≤ 20) ∧
     ruleset ∈ rulesetValues ∧ leveling_mode ∈ levelingModeValues ∧
     tone ∈ toneValues ∧ theme ∈ themeValues ∧
     (1 ≤ session_count_target ∧ session_count_target ≤ 20) then
    Except.ok
      { concept := concept
        party_level_start := party_level_start
        party_level_end := party_level_end
        ruleset := ruleset
        leveling_mode := leveling_mode
        tone := tone
        theme := theme
        session_count_target := session_count_target
        constraints := constraints
        include_travel := include_travel }
  else Except.error "ValidationError"

/-! ### Pipeline orchestration (`generate_outline_pair`, pure tail) -/

/-- The character class Python's `str.strip()` removes (CPython's
`Py_UNICODE_ISSPACE`): U+0009–U+000D, U+001C–U+0020, NEL U+0085, NBSP
U+00A0, U+1680, U+2000–U+200A, the line/paragraph separators U+2028/U+2029,
U+202F, U+205F and U+3000. -/
def isPySpace (c : Char) : Bool :=
  (Char.ofNat 0x09 ≤ c && c ≤ Char.ofNat 0x0d) ||
  (Char.ofNat 0x1c ≤ c && c ≤ Char.ofNat 0x20) ||
  c = Char.ofNat 0x85 || c = Char.ofNat 0xa0 ||
  c = Char.ofNat 0x1680 ||
  (Char.ofNat 0x2000 ≤ c && c ≤ Char.ofNat 0x200a) ||
  c = Char.ofNat 0x2028 || c = Char.ofNat 0x2029 ||
  c = Char.ofNat 0x202f || c = Char.ofNat 0x205f ||
  c = Char.ofNat 0x3000

/-- Python's `not s.strip()`: `s` is empty or consists only of whitespace
characters (the full Unicode whitespace set `str.strip()` removes). -/
def isBlankTitle (s : String) : Bool :=
  s.toList.all isPySpace

/-- The tail of `generate_outline_pair` after stage-2 validation, applied to
the two validated documents (the two generation calls are external): if the
detailed outline's `outline_title` strips to empty, overwrite it with the
stage-1 `title`; then pair the two documents. -/
def generate_outline_pair_result (outline : AdventureOutline)
    (detailed : DetailedAdventureOutline) : OutlineResponse :=
  let detailed2 :=
    if isBlankTitle detailed.outline_title then
      { detailed with outline_title := outline.title }
    else detailed
  { outline := outline, detailed := detailed2 }

/-! ### Demo mode (`demo_outline_response`) — no API calls -/

/-- The static stage-1 outline built by `demo_outline_response`. -/
def demoOutline (req : OutlineRequest) : AdventureOutline :=
  { title := "Demo: The Leyline Theft"
    logline := "(Demo mode) A short adventure based on: " ++ req.concept.take 140
    central_conflict :=
      "A hidden engine is siphoning ley energy, warping reality and drawing hostile incursions."
    villain_or_antagonist :=
      "The Conduit Architect, a grief-twisted arcanist who believes the new world must be stabilized at any cost."
    themes := [req.theme, req.tone, "mystery", "consequence"]
    hooks :=
      ["A trading caravan vanishes along a route that now ‘loops’ back on itself.",
       "A village well reflects a different sky at night; those who stare too long dream of a door of bone and glass."]
    key_npcs :=
      [{ name := "Elder Myrla Fen"
         role := "Hamlet leader and guide"
         public_face := "Practical, suspicious, deeply tired"
         secret := "She’s been trading favors with the phenomenon to keep her people safe."
         leverage := "Knows a hidden path to the ruins and who first brought the ‘lens’ relic to town." },
       { name := "Archivist Rell"
         role := "Obsessive researcher"
         public_face := "Eager, verbose, helpful"
         secret := "Stole a focus crystal that worsened the siphon."
         leverage := "Can translate the Draconic lintel and identify the correct ‘alignment’ for the door puzzle." },
       { name := "Silk-in-the-Mist"
         role := "Fey emissary (ambiguous ally)"
         public_face := "Playful and polite; never answers directly"
         secret := "Wants the conduit left partially open to expand Fey influence."
         leverage := "Can grant safe passage if the party accepts a bargain—small now, costly later." }]
    factions :=
      [{ name := "The Lantern Wardens"
         goal := "Keep the road open and people alive"
         method := "Curfews, patrols, controlled information"
         complication := "They’re one bad night from turning into a paranoid mob." },
       { name := "The Mirror Court (Fey)"
         goal := "Exploit the thinning veil for territory"
         method := "Bargains, gifts, subtle replacements"
         complication := "Their ‘help’ always changes someone." }]
    beats :=
      [{ beat_id := "B1"
         title := "The Road that Repeats"
         purpose := "Hook the party and establish reality glitches."
         stakes := "If they can’t break the loop, supplies and people won’t reach the region."
         twist_or_reveal := "The party finds their own footprints coming from the opposite direction." },
       { beat_id := "B2"
         title := "A Hamlet on Stilts"
         purpose := "Learn lore and meet key NPCs."
         stakes := "If the hamlet collapses, the region loses its only refuge."
         twist_or_reveal := "The well shows a different constellation than the real sky." },
       { beat_id := "B3"
         title := "The Draconic Gate"
         purpose := "Enter the primary site via a puzzle/skill challenge."
         stakes := "Failing draws a guardian and alerts the antagonist."
         twist_or_reveal := "The lintel names the Architect as a ‘mourner’ rather than a conqueror." },
       { beat_id := "B4"
         title := "The Conduit Chamber"
         purpose := "Main set-piece confrontation."
         stakes := "If the siphon spikes, a planar tear opens permanently."
         twist_or_reveal := "The ‘enemy’ is stabilizing the newborn plane with stolen power." },
       { beat_id := "B5"
         title := "Choice at Dawn"
         purpose := "Resolve with consequences and future hooks."
         stakes := "Who controls the relic shapes the region’s fate."
         twist_or_reveal := "A fey bargain can ‘fix’ things—by changing someone’s past." }]
    continuity_promises :=
      ["Reality glitches manifest as loops, mirrored skies, and repeated sounds.",
       "A focus crystal/lens is a key component to see or tune the ley flow.",
       "The hamlet depends on the party to keep the road open.",
       "The ruins are draconic/dragonborn in origin with readable sigils.",
       "A fey faction benefits from the veil staying thin.",
       "The antagonist is motivated by grief and believes they are ‘saving’ something."] }

/-- The one data-dependent computation of `demo_outline_response`:
`mid_level = req.party_level_start`, then if
`req.party_level_end > req.party_level_start`,
`mid_level = min(req.party_level_start + 1, req.party_level_end)`. -/
def demoMidLevel (req : OutlineRequest) : Int :=
  if req.party_level_end > req.party_level_start then
    min (req.party_level_start + 1) req.party_level_end
  else req.party_level_start

/-- The static stage-2 detailed outline built by `demo_outline_response`. -/
def demoDetailed (req : OutlineRequest) : DetailedAdventureOutline :=
  { outline_title := (demoOutline req).title
    structure_notes :=
      ["Demo mode: no API calls were made. This content is prebuilt.",
       "Includes combat and non-combat encounters plus milestone leveling."]
    scenes :=
      [{ scene_id := "S1"
         title := "The Road that Repeats"
         location := "A fog-choked causeway where landmarks reappear"
         goal := "Break the travel loop and find evidence of the missing caravan"
         boxed_text := "Fog presses close. Your lanternlight seems to lag behind your movements, like it’s remembering you rather than following you."
         obstacles := ["Disorienting loop", "False trail markers", "Echoing footsteps that aren’t yours"]
         encounters :=
           [{ encounter_id := "E1"
              type := "skill_challenge"
              difficulty := "medium"
              summary := "Navigate the loop by triangulating repeating signs and anchoring reality with a clever method."
              win_condition := "Accumulate enough successes to identify the ‘fixed’ landmark and exit the loop."
              fail_forward := "You exit, but lose time and arrive as something begins stalking the hamlet’s outskirts."
              setup := ["Let players propose skills; reward clever anchors (chalk marks, rope, rhythmic counting)."]
              scaling_notes := ["If the party struggles, provide a clue from a half-faded draconic rune stone."] }]
         clues_and_info := ["A caravan token stamped with a lantern sigil", "Iridescent pollen (fey sign)"]
         rewards := ["Supplies cache (rations, rope, lamp oil)", "Map scrap pointing to an old draconic road gate"]
         consequences := ["Failing increases tension in the hamlet; Wardens impose stricter curfews."]
         links_to_beats := ["B1"]
         estimated_minutes := 45 },
       { scene_id := "S2"
         title := "A Hamlet on Stilts"
         location := "A stilted hamlet above black water"
         goal := "Gain trust, learn what changed, and identify the relic’s trail"
         boxed_text := "Homes balance on stilts over dark water. Wind chimes click with unsettling regularity—like a metronome for the fog."
         obstacles := ["Suspicious locals", "Conflicting rumors", "A ‘helpful’ stranger asking too many questions"]
         encounters :=
           [{ encounter_id := "E2"
              type := "social"
              difficulty := "medium"
              summary := "Win the Wardens’ trust and convince Elder Myrla to reveal the hidden route."
              win_condition := "Earn an invitation to a private meeting and access to the old gate key."
              fail_forward := "You get the key, but the Wardens shadow you and may intervene at a bad moment."
              setup := ["Present 3 rumors (true/half/false). Let players test them in conversation."]
              scaling_notes := ["If stuck, Archivist Rell blurts out a crucial fact to ‘help’."] }]
         clues_and_info := ["The well reflects a different sky at night", "Rell mentions a ‘focus lens’ that ‘tunes the air’"]
         rewards := ["Old gate key", "Local ally (one Warden)"]
         consequences := ["If players antagonize locals, resource prices rise and help disappears."]
         links_to_beats := ["B2"]
         estimated_minutes := 50 },
       { scene_id := "S3"
         title := "The Draconic Gate"
         location := "Collapsed draconic stonework swallowed by roots"
         goal := "Open the sealed entry without triggering a full alarm"
         boxed_text := "Ancient scales carved in stone stare down. Their eyes—dark glass—drink your lanternlight until it feels colder."
         obstacles := ["Sealed relief door", "Misaligned ‘scale’ panels", "Ambient magic that distorts sound"]
         encounters :=
           [{ encounter_id := "E3"
              type := "puzzle"
              difficulty := "medium"
              summary := "Align draconic relief scales to match the ‘true’ constellation seen in the hamlet well."
              win_condition := "Door opens quietly; you keep the initiative later."
              fail_forward := "Door opens loudly; a guardian is active deeper within and time pressure increases."
              setup := ["Give 3 hints: well-constellation sketch, rune-stone pattern, and a ‘missing scale’ clue."]
              scaling_notes := ["Allow Arcana/History checks to reveal the intended sequence if needed."] }]
         clues_and_info := ["Lintel names the Architect as ‘Mourner’", "Ley hum intensifies past the threshold"]
         rewards := ["Safe entry", "Foreshadow note about grief and ‘stabilizing’"]
         consequences := ["Noisy entry makes later combat harder (reinforcements or worse terrain)."]
         links_to_beats := ["B3"]
         estimated_minutes := 45 },
       { scene_id := "S4"
         title := "The Conduit Chamber"
         location := "A circular chamber with a central shaft and broken platforms"
         goal := "Stop or redirect the siphon before a tear stabilizes"
         boxed_text := "A shaft drops into darkness. The air tastes like lightning. Below, a slow pulse paints the stone with borrowed starlight."
         obstacles := ["Vertical terrain", "Unstable platforms", "Siphon pulse countdown"]
         encounters :=
           [{ encounter_id := "E4"
              type := "combat"
              difficulty := "hard"
              summary := "Fight a guardian while the conduit pulses each round, shifting platforms and opening brief rifts."
              win_condition := "Defeat or disable the guardian and disrupt the focus crystal’s alignment."
              fail_forward := "You survive but the tear partially stabilizes; a future incursion is guaranteed."
              setup := ["Use a 3-stage countdown. Each stage changes terrain (tilt platforms, rift hazards)."]
              scaling_notes := ["Scale down by reducing hazards; scale up by adding rift-spawned minions."] }]
         clues_and_info := ["The conduit can stabilize the newborn plane—but at a cost", "The lens is a tuning key, not just treasure"]
         rewards := ["Focus lens relic", "Blueprint-like etchings of ley routes"]
         consequences := ["If tear stabilizes, the region changes: more fey/planar bleed, new rules at night."]
         links_to_beats := ["B4"]
         estimated_minutes := 60 },
       { scene_id := "S5"
         title := "Choice at Dawn"
         location := "Ruin exit overlooking the hamlet and the fog line"
         goal := "Choose what to do with the lens and how to handle the factions"
         boxed_text := "The fog thins. For the first time you hear the water—just water—like the world is holding its breath."
         obstacles := ["Conflicting claims", "The ‘easy fix’ bargain", "Long-term consequences"]
         encounters :=
           [{ encounter_id := "E5"
              type := "social"
              difficulty := "medium"
              summary := "Negotiate between the Wardens, Archivist Rell, and Silk-in-the-Mist about the lens."
              win_condition := "Choose a path and secure allies for the fallout."
              fail_forward := "You choose anyway, but you make an enemy who acts immediately."
              setup := ["Give 2–3 offers with clear costs/benefits. Make the bargain tempting but specific."]
              scaling_notes := ["If table wants action, turn this into a chase or tense standoff instead."] }]
         clues_and_info := ["The antagonist’s goal is not simple evil", "This is the first node of a larger ley network"]
         rewards := ["Reputation and a faction ally", "A lead to the next anomaly site"]
         consequences := ["Your choice determines how thin the veil remains and who hunts you next."]
         links_to_beats := ["B5"]
         estimated_minutes := 45 }]
    level_progression :=
      [{ step_id := "L1"
         after_scene_id := "S2"
         level := demoMidLevel req
         rationale := "Milestone: uncover the core mystery and secure access to the draconic gate."
         optional_side_objectives := ["Help the Wardens with a nighttime watch to earn an extra resource."] },
       { step_id := "L2"
         after_scene_id := "S4"
         level := req.party_level_end
         rationale := "Milestone: confront the conduit chamber and claim the lens relic—major arc completion."
         optional_side_objectives := ["Stabilize the tear completely with a risky alignment ritual (adds future complications)."] }]
    optional_side_quests :=
      ["Night Watch: identify what’s stalking the hamlet’s outskirts (no combat required; can be a scare + clue trail).",
       "The Well-Sky: record the false constellation and learn who first noticed it."]
    recap_questions :=
      ["Which faction did you trust the most, and why?",
       "What did the lens feel like when you held it (cold, warm, alive, whispering)?",
       "What consequence are you willing to accept to keep the world stable?"] }

/-- `demo_outline_response(req)`: the static demo pair; a total function of
the request — it performs no network call and never fails. -/
def demo_outline_response (req : OutlineRequest) : OutlineResponse :=
  { outline := demoOutline req, detailed := demoDetailed req }

/-! ### The `generate_btn` handler (Streamlit session state, embedded as
explicit state passing) -/

/-- The session-state keys the outline handler touches
(`st.session_state["outline_result" | "last_outline_request" | "last_error"]`). -/
structure SessionState where
  outline_result : Option OutlineResponse
  last_outline_request : Option OutlineRequest
  last_error : Option String
deriving DecidableEq

/-- Outcome of the (external) call `generate_outline_pair(client, model,
req)`: either a validated pair, or a raised exception embedded by its
message `str(e)`. -/
inductive GenOutcome where
  | ok (r : OutlineResponse)
  | raised (msg : String)

/-- The `generate_btn` handler body after request construction, as a state
transformer: in demo mode store the demo pair; otherwise store the upstream
result on success, fall back to the demo pair when `is_quota_error(e)`, and
on any other error record the message and leave the stored results
untouched. -/
def handleGenerate (demo_mode : Bool) (req : OutlineRequest)
    (outcome : GenOutcome) (st : SessionState) : SessionState :=
  if demo_mode then
    { st with
      outline_result := some (demo_outline_response req)
      last_outline_request := some req
      last_error := none }
  else
    match outcome with
    | GenOutcome.ok r =>
        { st with
          outline_result := some r
          last_outline_request := some req
          last_error := none }
    | GenOutcome.raised e =>
        if is_quota_error e then
          { st with
            outline_result := some (demo_outline_response req)
            last_outline_request := some req
            last_error := none }
        else
          { st with last_error := some e }

/-! ### Concrete fixtures -/

/-- The end-to-end scenario request of the spec: concept "A cursed
lighthouse traps sailors in a time loop", levels 1→3, ruleset "5e",
2 sessions. -/
def lighthouseRequest : OutlineRequest where
  concept := "A cursed lighthouse traps sailors in a time loop"
  party_level_start := 1
  party_level_end := 3
  ruleset := "5e"
  leveling_mode := "milestone"
  tone := "mystery"
  theme := "dungeon"
  session_count_target := 2
  constraints := []
  include_travel := true

/-- The lighthouse request with the party levels replaced. -/
def levelsRequest (s e : Int) : OutlineRequest :=
  { lighthouseRequest with party_level_start := s, party_level_end := e }

/-- A response with two message-typed items, each holding one
`output_text` block: the first says `"alpha"`, the second `"beta"`. -/
def respTwoMessages : UpstreamResponse where
  output :=
    [{ type := "message", content := [{ type := "output_text", text := "alpha" }] },
     { type := "message", content := [{ type := "output_text", text := "beta" }] }]

/-- A response whose only message item carries a single `output_text` block
holding the empty string. -/
def respEmptyText : UpstreamResponse where
  output := [{ type := "message", content := [{ type := "output_text", text := "" }] }]

/-- A JSON node that is not an object schema (its `"type"` is
`"string"`), so the adapter leaves it untouched. -/
def exPassthrough : Json :=
  Json.obj [("type", Json.str "string"), ("minLength", Json.num 10)]

/-- The empty session state (all three keys `None`, as initialized). -/
def emptySession : SessionState where
  outline_result := none
  last_outline_request := none
  last_error := none

/-! ## Lemmas about Python-dict association lists -/

/-- Overwriting a key then reading it back gives the new value. -/
theorem lookup_setKey_self (l : List (String × Json)) (k : String) (v : Json) :
    lookup (setKey l k v) k = some v := by
  induction l with
  | nil => simp [setKey, lookup]
  | cons kv rest ih =>
      obtain ⟨k0, w⟩ := kv
      by_cases hk : k0 = k <;> simp [setKey, lookup, hk, ih]

/-- Overwriting one key does not change the value read at another. -/
theorem lookup_setKey_ne (l : List (String × Json)) (k : String) (v : Json)
    (k' : String) (h : k' ≠ k) : lookup (setKey l k v) k' = lookup l k' := by
  induction l with
  | nil => simp [setKey, lookup, Ne.symm h]
  | cons kv rest ih =>
      obtain ⟨k0, w⟩ := kv
      by_cases hk : k0 = k
      · subst hk
        simp [setKey, lookup, Ne.symm h]
      · simp [setKey, lookup, hk, ih]

/-- Writing a key twice keeps only the second write. -/
theorem setKey_setKey_self (l : List (String × Json)) (k : String) (v w : Json) :
    setKey (setKey l k v) k w = setKey l k w := by
  induction l with
  | nil => simp [setKey]
  | cons kv rest ih =>
      obtain ⟨k0, u⟩ := kv
      by_cases hk : k0 = k <;> simp [setKey, hk, ih]

/-- Re-writing a key that was already written, across an intervening write
at a different key, collapses into the earlier write. -/
theorem setKey_overwrite_comm (l : List (String × Json)) (a b : String)
    (va vb va' : Json) (h : a ≠ b) :
    setKey (setKey (setKey l a va) b vb) a va' = setKey (setKey l a va') b vb := by
  induction l with
  | nil => simp [setKey, h, Ne.symm h]
  | cons kv rest ih =>
      obtain ⟨k0, u⟩ := kv
      by_cases hka : k0 = a
      · subst hka
        simp [setKey, h, Ne.symm h]
      · by_cases hkb : k0 = b
        · subst hkb
          simp [setKey, hka, Ne.symm h, lookup, setKey_setKey_self]
        · simp [setKey, hka, hkb, ih]

/-- Walking the values commutes with a dict write. -/
theorem walkMembers_setKey (l : List (String × Json)) (k : String) (v : Json) :
    walkMembers (setKey l k v) = setKey (walkMembers l) k (walk v) := by
  induction l with
  | nil => simp [setKey, walkMembers]
  | cons kv rest ih =>
      obtain ⟨k0, w⟩ := kv
      by_cases hk : k0 = k <;> simp [setKey, walkMembers, hk, ih]

/-- `walk` fixes an array of strings. -/
theorem walkList_map_str (l : List String) :
    walkList (l.map Json.str) = l.map Json.str := by
  induction l with
  | nil => simp [walkList]
  | cons s rest ih => simp [walkList, walk, ih]

/-- `walk` fixes the `required` array the adapter writes. -/
theorem walk_requiredOf (props : List (String × Json)) :
    walk (requiredOf props) = requiredOf props := by
  simp [requiredOf, walk, walkList_map_str]

/-- `asStrList` inverts `List.map Json.str`. -/
theorem asStrList_map_str (l : List String) :
    asStrList (l.map Json.str) = some l := by
  induction l with
  | nil => simp [asStrList]
  | cons s rest ih => simp [asStrList, ih]

/-- A list of string nodes satisfies the strictness contract. -/
theorem StrictOKList_map_str (l : List String) :
    StrictOKList (l.map Json.str) = true := by
  induction l with
  | nil => simp [StrictOKList]
  | cons s rest ih => simp [StrictOKList, StrictOK, ih]

/-- A dict write preserves the strictness contract of the values, provided
the written value satisfies it. -/
theorem StrictOKMembers_setKey (l : List (String × Json)) (k : String) (v : Json)
    (hl : StrictOKMembers l = true) (hv : StrictOK v = true) :
    StrictOKMembers (setKey l k v) = true := by
  induction l with
  | nil => simp [setKey, StrictOKMembers, hv]
  | cons kv rest ih =>
      obtain ⟨k0, w⟩ := kv
      simp only [StrictOKMembers, Bool.and_eq_true] at hl
      by_cases hk : k0 = k <;>
        simp [setKey, StrictOKMembers, hk, hl.1, hl.2, hv, ih hl.2]

mutual

/-- `deepCopy` is the identity at the level of values (the Python round trip
`json.loads(json.dumps(x))` rebuilds an equal tree). -/
theorem deepCopy_id : ∀ j : Json, deepCopy j = j
  | Json.null => rfl
  | Json.bool _ => rfl
  | Json.num _ => rfl
  | Json.str _ => rfl
  | Json.arr es => by simp [deepCopy, deepCopyList_id es]
  | Json.obj ms => by simp [deepCopy, deepCopyMembers_id ms]

/-- `deepCopyList` is the identity. -/
theorem deepCopyList_id : ∀ es : List Json, deepCopyList es = es
  | [] => rfl
  | e :: es => by simp [deepCopyList, deepCopy_id e, deepCopyList_id es]

/-- `deepCopyMembers` is the identity. -/
theorem deepCopyMembers_id : ∀ ms : List (String × Json), deepCopyMembers ms = ms
  | [] => rfl
  | (k, v) :: ms => by simp [deepCopyMembers, deepCopy_id v, deepCopyMembers_id ms]

end

/-! ## The adapter's per-node patch, analysed -/

/-- A write at a key other than `"type"` does not affect the
`node.get("type") == "object"` test. -/
theorem typeIsObject_setKey (l : List (String × Json)) (k : String) (v : Json)
    (h : "type" ≠ k) : typeIsObject (setKey l k v) = typeIsObject l := by
  unfold typeIsObject
  rw [lookup_setKey_ne l k v "type" h]

/-- A write at a key other than `"properties"` does not affect the
extracted properties mapping. -/
theorem propsOf_setKey (l : List (String × Json)) (k : String) (v : Json)
    (h : "properties" ≠ k) : propsOf (setKey l k v) = propsOf l := by
  unfold propsOf
  rw [lookup_setKey_ne l k v "properties" h]

/-- Case analysis of `patchNode`: either the node is not an object node with
non-empty properties and the members are left unchanged, or it is and both
`additionalProperties` and `required` are written. -/
theorem patchNode_eq (l : List (String × Json)) :
    (isObjectWithProps l = false ∧ patchNode l = l) ∨
    (∃ props, isObjectWithProps l = true ∧
      typeIsObject l = true ∧ propsOf l = some props ∧
      props.isEmpty = false ∧
      patchNode l =
        setKey (setKey l "additionalProperties" (Json.bool false))
          "required" (requiredOf props)) := by
  unfold patchNode isObjectWithProps
  by_cases ht : typeIsObject l
  · match hp : propsOf l with
    | none => simp [ht, hp]
    | some props =>
        by_cases hempty : props.isEmpty
        · simp [ht, hp, hempty]
        · exact Or.inr ⟨props, by simp [ht, hp, hempty], ht, rfl,
            by simp [hempty], by simp [ht, hp, hempty]⟩
  · simp [ht]

/-- After `patchNode`, the node itself meets the strictness contract, and
its values still do (the two written values are scalar/string-array nodes). -/
theorem patchNode_strict (l : List (String × Json))
    (hl : StrictOKMembers l = true) :
    strictNodeOK (patchNode l) = true ∧ StrictOKMembers (patchNode l) = true := by
  rcases patchNode_eq l with ⟨hno, heq⟩ | ⟨props, hyes, ht, hp, hne, heq⟩
  · rw [heq]
    constructor
    · unfold strictNodeOK
      rw [hno]
      simp
    · exact hl
  · rw [heq]
    have hAR : ("additionalProperties" : String) ≠ "required" := by decide
    have hTA : ("type" : String) ≠ "additionalProperties" := by decide
    have hTR : ("type" : String) ≠ "required" := by decide
    have hPA : ("properties" : String) ≠ "additionalProperties" := by decide
    have hPR : ("properties" : String) ≠ "required" := by decide
    have ht2 : typeIsObject
        (setKey (setKey l "additionalProperties" (Json.bool false))
          "required" (requiredOf props)) = true := by
      rw [typeIsObject_setKey _ _ _ hTR, typeIsObject_setKey _ _ _ hTA, ht]
    have hp2 : propsOf
        (setKey (setKey l "additionalProperties" (Json.bool false))
          "required" (requiredOf props)) = some props := by
      rw [propsOf_setKey _ _ _ hPR, propsOf_setKey _ _ _ hPA, hp]
    have hadd : lookup
        (setKey (setKey l "additionalProperties" (Json.bool false))
          "required" (requiredOf props)) "additionalProperties" =
        some (Json.bool false) := by
      rw [lookup_setKey_ne _ _ _ _ hAR, lookup_setKey_self]
    have hreq : lookup
        (setKey (setKey l "additionalProperties" (Json.bool false))
          "required" (requiredOf props)) "required" = some (requiredOf props) :=
      lookup_setKey_self _ _ _
    constructor
    · unfold strictNodeOK isObjectWithProps
      rw [ht2, hp2, hadd, hreq]
      simp [requiredOf, asStrList_map_str, hne]
    · have h1 : StrictOKMembers (setKey l "additionalProperties" (Json.bool false)) = true :=
        StrictOKMembers_setKey _ _ _ hl rfl
      exact StrictOKMembers_setKey _ _ _ h1
        (by simp [requiredOf, StrictOK, StrictOKList_map_str])

/-- Patching members whose values `walk` already fixes produces members that
`patchNode` fixes again: re-walking and re-patching changes nothing. -/
theorem patchNode_stable (l1 : List (String × Json))
    (hfix : walkMembers l1 = l1) :
    patchNode (walkMembers (patchNode l1)) = patchNode l1 := by
  rcases patchNode_eq l1 with ⟨hno, heq⟩ | ⟨props, hyes, ht, hp, hne, heq⟩
  · rw [heq, hfix]
    exact heq
  · rw [heq]
    have hAR : ("additionalProperties" : String) ≠ "required" := by decide
    have hTA : ("type" : String) ≠ "additionalProperties" := by decide
    have hTR : ("type" : String) ≠ "required" := by decide
    have hPA : ("properties" : String) ≠ "additionalProperties" := by decide
    have hPR : ("properties" : String) ≠ "required" := by decide
    have hwm : walkMembers
        (setKey (setKey l1 "additionalProperties" (Json.bool false))
          "required" (requiredOf props)) =
        setKey (setKey l1 "additionalProperties" (Json.bool false))
          "required" (requiredOf props) := by
      rw [walkMembers_setKey, walkMembers_setKey, hfix, walk_requiredOf]
      rfl
    rw [hwm]
    have ht2 : typeIsObject
        (setKey (setKey l1 "additionalProperties" (Json.bool false))
          "required" (requiredOf props)) = true := by
      rw [typeIsObject_setKey _ _ _ hTR, typeIsObject_setKey _ _ _ hTA, ht]
    have hp2 : propsOf
        (setKey (setKey l1 "additionalProperties" (Json.bool false))
          "required" (requiredOf props)) = some props := by
      rw [propsOf_setKey _ _ _ hPR, propsOf_setKey _ _ _ hPA, hp]
    unfold patchNode
    rw [ht2, hp2]
    simp only [hne, if_true, if_false, Bool.false_eq_true]
    rw [setKey_overwrite_comm l1 "additionalProperties" "required"
        (Json.bool false) (requiredOf props) (Json.bool false) hAR,
      setKey_setKey_self]

/-! ## The walk establishes the strictness contract everywhere -/

mutual

/-- After the adapter's walk, every node satisfies the strictness contract. -/
theorem strictOK_walk : ∀ j : Json, StrictOK (walk j) = true
  | Json.null => rfl
  | Json.bool _ => rfl
  | Json.num _ => rfl
  | Json.str _ => rfl
  | Json.arr es => by
      simp [walk, StrictOK, strictOK_walkList es]
  | Json.obj ms => by
      have h := patchNode_strict (walkMembers ms) (strictOK_walkMembers ms)
      simp [walk, StrictOK, h.1, h.2]

/-- `strictOK_walk` over array elements. -/
theorem strictOK_walkList : ∀ es : List Json, StrictOKList (walkList es) = true
  | [] => rfl
  | e :: es => by
      simp [walkList, StrictOKList, strictOK_walk e, strictOK_walkList es]

/-- `strictOK_walk` over object values. -/
theorem strictOK_walkMembers :
    ∀ ms : List (String × Json), StrictOKMembers (walkMembers ms) = true
  | [] => rfl
  | (k, v) :: ms => by
      simp [walkMembers, StrictOKMembers, strictOK_walk v, strictOK_walkMembers ms]

end

/-! ## A value with no patch target passes through unchanged -/

mutual

/-- If no node of the value satisfies the patch condition, the walk is the
identity on it. -/
theorem walk_fixed : ∀ j : Json, hasPatchTarget j = false → walk j = j
  | Json.null, _ => rfl
  | Json.bool _, _ => rfl
  | Json.num _, _ => rfl
  | Json.str _, _ => rfl
  | Json.arr es, h => by
      have hes : hasPatchTargetList es = false := by
        simpa [hasPatchTarget] using h
      rw [walk, walkList_fixed es hes]
  | Json.obj ms, h => by
      have h2 : isObjectWithProps ms = false ∧ hasPatchTargetMembers ms = false := by
        simpa [hasPatchTarget] using h
      rw [walk, walkMembers_fixed ms h2.2]
      rcases patchNode_eq ms with ⟨_, heq⟩ | ⟨props, hyes, _⟩
      · rw [heq]
      · rw [h2.1] at hyes
        exact absurd hyes (by simp)

/-- `walk_fixed` over array elements. -/
theorem walkList_fixed :
    ∀ es : List Json, hasPatchTargetList es = false → walkList es = es
  | [], _ => rfl
  | e :: es, h => by
      have h2 : hasPatchTarget e = false ∧ hasPatchTargetList es = false := by
        simpa [hasPatchTargetList] using h
      rw [walkList, walk_fixed e h2.1, walkList_fixed es h2.2]

/-- `walk_fixed` over object values. -/
theorem walkMembers_fixed :
    ∀ ms : List (String × Json), hasPatchTargetMembers ms = false → walkMembers ms = ms
  | [], _ => rfl
  | (k, v) :: ms, h => by
      have h2 : hasPatchTarget v = false ∧ hasPatchTargetMembers ms = false := by
        simpa [hasPatchTargetMembers] using h
      rw [walkMembers, walk_fixed v h2.1, walkMembers_fixed ms h2.2]

end

/-! ## The walk is idempotent -/

mutual

/-- Walking an already-walked value changes nothing. -/
theorem walk_walk : ∀ j : Json, walk (walk j) = walk j
  | Json.null => rfl
  | Json.bool _ => rfl
  | Json.num _ => rfl
  | Json.str _ => rfl
  | Json.arr es => by
      simp only [walk]
      rw [walkList_walkList es]
  | Json.obj ms => by
      simp only [walk]
      rw [patchNode_stable (walkMembers ms) (walkMembers_walkMembers ms)]

/-- `walk_walk` over array elements. -/
theorem walkList_walkList : ∀ es : List Json, walkList (walkList es) = walkList es
  | [] => rfl
  | e :: es => by
      simp only [walkList]
      rw [walk_walk e, walkList_walkList es]

/-- `walk_walk` over object values. -/
theorem walkMembers_walkMembers :
    ∀ ms : List (String × Json), walkMembers (walkMembers ms) = walkMembers ms
  | [] => rfl
  | (k, v) :: ms => by
      simp only [walkMembers]
      rw [walk_walk v, walkMembers_walkMembers ms]

end

/-! ## Claim theorems for the strict-schema adapter -/

/-- C1: for every JSON-shaped mapping, in the schema returned by
`enforce_openai_strict_schema` every node whose `"type"` is `"object"` and
whose `"properties"` is a non-empty mapping has `"additionalProperties" =
false` and `"required"` equal to the sorted list of its property names,
recursively at every nesting depth (`StrictOK`); and a value containing no
such object node passes through unchanged. -/
theorem claim_strict_schema_patched (schema : Json) :
    StrictOK (enforce_openai_strict_schema schema) = true ∧
    (hasPatchTarget schema = false →
      enforce_openai_strict_schema schema = schema) := by
  constructor
  · unfold enforce_openai_strict_schema
    rw [deepCopy_id]
    exact strictOK_walk schema
  · intro h
    unfold enforce_openai_strict_schema
    rw [deepCopy_id]
    exact walk_fixed schema h

/-- Witness for C1 at a concrete non-object schema node. -/
theorem claim_strict_schema_patched_witness :
    StrictOK (enforce_openai_strict_schema exPassthrough) = true ∧
    enforce_openai_strict_schema exPassthrough = exPassthrough :=
  ⟨(claim_strict_schema_patched exPassthrough).1,
   (claim_strict_schema_patched exPassthrough).2
     (by simp [exPassthrough, hasPatchTarget, hasPatchTargetMembers,
       isObjectWithProps, typeIsObject, propsOf, lookup])⟩

/-- C6: the strict-schema adapter is idempotent: adapting an adapted schema
returns it unchanged. -/
theorem claim_strict_schema_idempotent (s : Json) :
    enforce_openai_strict_schema (enforce_openai_strict_schema s) =
      enforce_openai_strict_schema s := by
  unfold enforce_openai_strict_schema
  rw [deepCopy_id, deepCopy_id]
  exact walk_walk s

/-- C7: `enforce_openai_strict_schema` never mutates its argument: in the
state-passing embedding of the call, the caller's value after the call is
its value before the call; all patching applies to the returned deep copy,
and the copy itself equals the input node for node. -/
theorem claim_strict_schema_no_mutation (schema : Json) :
    (enforce_call schema).2 = schema ∧ deepCopy schema = schema :=
  ⟨rfl, deepCopy_id schema⟩

/-! ## Extraction: which text block the client uses -/

/-- Unfolding `extractLoop`: it computes the last contribution among the
message items, falling back to the initial accumulator. -/
theorem extractLoop_eq (l : List OutputItem) (acc : Option String) :
    extractLoop acc l =
      match ((l.filter (fun item => item.type = "message")).filterMap
          (fun item => firstOutputText item.content)).getLast? with
      | some t => some t
      | none => acc := by
  induction l generalizing acc with
  | nil => simp [extractLoop]
  | cons item rest ih =>
      rw [extractLoop]
      by_cases hm : item.type = "message"
      · cases hft : firstOutputText item.content with
        | none =>
            rw [if_pos hm]
            refine (ih _).trans ?_
            simp [hm, hft]
        | some t =>
            rw [if_pos hm]
            refine (ih _).trans ?_
            simp only [List.filter_cons, hm, List.filterMap_cons, hft,
              List.getLast?_cons, decide_eq_true_eq, if_true, decide_True]
            cases ((rest.filter (fun item => item.type = "message")).filterMap
                (fun item => firstOutputText item.content)).getLast? <;> simp
      · rw [if_neg hm]
        refine (ih _).trans ?_
        simp [hm]

/-- C2 (amended): `generate_json_schema` returns the JSON parse of the first
text-type content block of the LAST message-typed output item that contains
such a block; it errors when no message item contains a text block or when
the extracted text is empty, and a parse failure of the (non-empty)
extracted text propagates as the result. -/
theorem claim_generate_parses_extracted (loads : String → Except String Json)
    (resp : UpstreamResponse) :
    generate_json_schema loads resp =
      match lastMessageText resp.output with
      | some t =>
          if t = "" then Except.error "No output_text found in model response."
          else loads t
      | none => Except.error "No output_text found in model response." := by
  unfold generate_json_schema extract_output_text lastMessageText
  rw [extractLoop_eq]
  cases ((resp.output.filter (fun item => item.type = "message")).filterMap
      (fun item => firstOutputText item.content)).getLast? with
  | none => rfl
  | some t => by_cases ht : t = "" <;> simp [ht]

/-- C2 fails as stated: in `respTwoMessages` the first message item's text
block holds `"alpha"`, yet the client extracts `"beta"`, the text of the
last message item — the outer loop of `_extract_output_text` has no
`break`, so later message items overwrite earlier ones. -/
theorem claim_generate_first_message_counterexample :
    extract_output_text respTwoMessages = Except.ok "beta" ∧
    ("beta" : String) ≠ "alpha" :=
  ⟨rfl, by decide⟩

/-- A successful `firstOutputText` names an `output_text` block of the list
and returns its text. -/
theorem firstOutputText_mem :
    ∀ (content : List ContentBlock) (t : String),
      firstOutputText content = some t →
      ∃ c ∈ content, c.type = "output_text" ∧ c.text = t
  | [], t, h => by simp [firstOutputText] at h
  | c :: rest, t, h => by
      by_cases hc : c.type = "output_text"
      · rw [firstOutputText, if_pos hc] at h
        exact ⟨c, by simp, hc, Option.some.inj h⟩
      · rw [firstOutputText, if_neg hc] at h
        obtain ⟨c2, hmem, hc2⟩ := firstOutputText_mem rest t h
        exact ⟨c2, by simp [hmem], hc2⟩

/-- When every `output_text` block of every message item holds the empty
string, the loop accumulator can only ever be `None` or `""`. -/
theorem extractLoop_all_empty (l : List OutputItem) (acc : Option String)
    (hacc : acc = none ∨ acc = some "")
    (hempty : ∀ item ∈ l, item.type = "message" →
      ∀ c ∈ item.content, c.type = "output_text" → c.text = "") :
    extractLoop acc l = none ∨ extractLoop acc l = some "" := by
  induction l generalizing acc with
  | nil => simpa [extractLoop] using hacc
  | cons item rest ih =>
      rw [extractLoop]
      refine ih _ ?_ ?_
      · by_cases hm : item.type = "message"
        · cases hft : firstOutputText item.content with
          | none => simpa [hm, hft] using hacc
          | some t =>
              obtain ⟨c, hcmem, hctype, hctext⟩ := firstOutputText_mem _ _ hft
              have ht : t = "" := by
                rw [← hctext]
                exact (hempty item (by simp) hm c hcmem hctype).symm ▸ rfl
              right
              simp [hm, hft, ht, hctext]
        · simpa [hm] using hacc
      · intro it hmem htype c hcmem hctype
        exact hempty it (by simp [hmem]) htype c hcmem hctype

/-- C10: when message-typed items are present but every text-type content
block they contain holds the empty string, `_extract_output_text` raises its
"No output_text found" error (the empty string is falsy in Python), so the
caller never JSON-parses empty extracted text. -/
theorem claim_extract_empty_text_errors (resp : UpstreamResponse)
    (hmsg : ∃ item ∈ resp.output, item.type = "message")
    (hempty : ∀ item ∈ resp.output, item.type = "message" →
      ∀ c ∈ item.content, c.type = "output_text" → c.text = "") :
    extract_output_text resp =
      Except.error "No output_text found in model response." := by
  unfold extract_output_text
  rcases extractLoop_all_empty resp.output none (Or.inl rfl) hempty with h | h <;>
    rw [h] <;> rfl

/-- Witness for C10 at `respEmptyText`. -/
theorem claim_extract_empty_text_errors_witness :
    extract_output_text respEmptyText =
      Except.error "No output_text found in model response." :=
  claim_extract_empty_text_errors respEmptyText
    ⟨{ type := "message", content := [{ type := "output_text", text := "" }] },
      by simp [respEmptyText], rfl⟩
    (by intro item hmem htype c hcmem hctype
        simp [respEmptyText] at hmem
        subst hmem
        simp at hcmem
        subst hcmem
        rfl)

/-! ## Quota-error detection and the fallback path -/

/-- `charsStartWith` detects exactly the lists extending the needle. -/
theorem charsStartWith_iff : ∀ n h : List Char,
    charsStartWith n h = true ↔ ∃ r, h = n ++ r
  | [], h => by simp [charsStartWith]
  | a :: as, [] => by simp [charsStartWith]
  | a :: as, b :: bs => by
      rw [charsStartWith]
      simp only [Bool.and_eq_true, decide_eq_true_eq]
      constructor
      · rintro ⟨rfl, htail⟩
        obtain ⟨r, rfl⟩ := (charsStartWith_iff as bs).mp htail
        exact ⟨r, rfl⟩
      · rintro ⟨r, hr⟩
        obtain ⟨rfl, rfl⟩ : b = a ∧ bs = as ++ r := by
          rw [List.cons_append] at hr
          exact ⟨(List.cons.inj hr).1, (List.cons.inj hr).2⟩
        exact ⟨rfl, (charsStartWith_iff as (as ++ r)).mpr ⟨r, rfl⟩⟩

/-- `charsContain` detects exactly the contiguous-substring decompositions. -/
theorem charsContain_iff : ∀ n h : List Char,
    charsContain n h = true ↔ ∃ l1 l2, h = l1 ++ n ++ l2
  | n, [] => by
      rw [charsContain, charsStartWith_iff]
      constructor
      · rintro ⟨r, hr⟩
        exact ⟨[], r, by simpa using hr⟩
      · rintro ⟨l1, l2, h12⟩
        rw [List.append_assoc] at h12
        obtain ⟨h1, h2⟩ := List.append_eq_nil.mp h12.symm
        exact ⟨l2, by simp [h2]⟩
  | n, b :: bs => by
      rw [charsContain, Bool.or_eq_true, charsStartWith_iff, charsContain_iff n bs]
      constructor
      · rintro (⟨r, hr⟩ | ⟨l1, l2, h12⟩)
        · exact ⟨[], r, by simpa using hr⟩
        · exact ⟨b :: l1, l2, by simp [h12]⟩
      · rintro ⟨l1, l2, h12⟩
        cases l1 with
        | nil => exact Or.inl ⟨l2, by simpa using h12⟩
        | cons x xs =>
            rw [List.cons_append, List.cons_append] at h12
            exact Or.inr ⟨xs, l2, (List.cons.inj h12).2⟩

/-- Python's `sub in msg`, characterised at the string level. -/
theorem strContains_iff (msg sub : String) :
    strContains msg sub = true ↔ ∃ a b : String, msg = a ++ sub ++ b := by
  rw [strContains, charsContain_iff]
  constructor
  · rintro ⟨l1, l2, h12⟩
    refine ⟨⟨l1⟩, ⟨l2⟩, String.ext ?_⟩
    simpa [String.data_append] using h12
  · rintro ⟨a, b, rfl⟩
    exact ⟨a.toList, b.toList, by simp [String.toList, String.data_append]⟩

/-- C3: `is_quota_error(e)` holds exactly when `str(e)` contains
`"insufficient_quota"` or `"exceeded your current quota"` as a substring;
when outline generation raises such an error the handler stores the demo
response for the same request (clearing the error), and on any other raised
error it only records the message, leaving the stored results untouched. -/
theorem claim_quota_error_fallback :
    (∀ msg : String, is_quota_error msg = true ↔
      ((∃ a b : String, msg = a ++ "insufficient_quota" ++ b) ∨
       (∃ a b : String, msg = a ++ "exceeded your current quota" ++ b))) ∧
    (∀ (req : OutlineRequest) (st : SessionState) (e : String),
      is_quota_error e = true →
      handleGenerate false req (GenOutcome.raised e) st =
        { st with
          outline_result := some (demo_outline_response req)
          last_outline_request := some req
          last_error := none }) ∧
    (∀ (req : OutlineRequest) (st : SessionState) (e : String),
      is_quota_error e = false →
      handleGenerate false req (GenOutcome.raised e) st =
        { st with last_error := some e }) := by
  refine ⟨?_, ?_, ?_⟩
  · intro msg
    rw [is_quota_error, Bool.or_eq_true, strContains_iff, strContains_iff]
  · intro req st e he
    simp [handleGenerate, he]
  · intro req st e he
    simp [handleGenerate, he]

/-- Witness for C3: a quota-flavoured message triggers the fallback, a plain
message does not. -/
theorem claim_quota_error_fallback_witness :
    (is_quota_error "Error code 429: you exceeded your current quota." = true) ∧
    handleGenerate false lighthouseRequest
        (GenOutcome.raised "Error code 429: you exceeded your current quota.")
        emptySession =
      { emptySession with
        outline_result := some (demo_outline_response lighthouseRequest)
        last_outline_request := some lighthouseRequest
        last_error := none } ∧
    handleGenerate false lighthouseRequest
        (GenOutcome.raised "connection reset by peer") emptySession =
      { emptySession with last_error := some "connection reset by peer" } :=
  ⟨by decide,
   claim_quota_error_fallback.2.1 lighthouseRequest emptySession _ (by decide),
   claim_quota_error_fallback.2.2 lighthouseRequest emptySession _ (by decide)⟩

/-! ## Orchestration, demo generator and request validation -/

/-- C4: after stage-2 validation, `generate_outline_pair` backfills a blank
`outline_title` with the stage-1 title and keeps a non-blank one; no other
field of either document changes. -/
theorem claim_title_backfill (outline : AdventureOutline)
    (detailed : DetailedAdventureOutline) :
    (generate_outline_pair_result outline detailed).detailed.outline_title =
      (if isBlankTitle detailed.outline_title then outline.title
       else detailed.outline_title) ∧
    (generate_outline_pair_result outline detailed).outline = outline ∧
    (generate_outline_pair_result outline detailed).detailed.structure_notes =
      detailed.structure_notes ∧
    (generate_outline_pair_result outline detailed).detailed.scenes =
      detailed.scenes ∧
    (generate_outline_pair_result outline detailed).detailed.level_progression =
      detailed.level_progression ∧
    (generate_outline_pair_result outline detailed).detailed.optional_side_quests =
      detailed.optional_side_quests ∧
    (generate_outline_pair_result outline detailed).detailed.recap_questions =
      detailed.recap_questions := by
  unfold generate_outline_pair_result
  by_cases hb : isBlankTitle detailed.outline_title <;> simp [hb]

/-- C5: the demo generator's level progression has exactly two steps; the
first step's level is `min(start + 1, end)` when `end > start` and `start`
otherwise, and the second step's level is `end`; in particular 3→5 gives
levels 4 and 5; 5→5 gives 5 and 5; 3→3 gives 3 and 3. -/
theorem claim_demo_level_progression (req : OutlineRequest) :
    ((demo_outline_response req).detailed.level_progression.map
        (fun s => s.level) =
      [if req.party_level_end > req.party_level_start then
          min (req.party_level_start + 1) req.party_level_end
        else req.party_level_start,
       req.party_level_end]) ∧
    ((demo_outline_response (levelsRequest 3 5)).detailed.level_progression.map
        (fun s => s.level) = [4, 5]) ∧
    ((demo_outline_response (levelsRequest 5 5)).detailed.level_progression.map
        (fun s => s.level) = [5, 5]) ∧
    ((demo_outline_response (levelsRequest 3 3)).detailed.level_progression.map
        (fun s => s.level) = [3, 3]) := by
  refine ⟨?_, ?_, ?_, ?_⟩
  · simp [demo_outline_response, demoDetailed, demoMidLevel]
  · decide
  · decide
  · decide

/-- C8: for every request the demo generator returns 5–9 beats with ids
`B1..Bn` in order and 5–9 scenes with ids `S1..Sm` in order, the scenes'
encounters collectively include a `"combat"` and a non-`"combat"` type, and
for the 1→3 lighthouse request the two level-progression steps resolve to
levels 2 and 3.  The generator is a total function of the request — it
performs no network call and never fails. -/
theorem claim_demo_outline_shape (req : OutlineRequest) :
    (5 ≤ (demo_outline_response req).outline.beats.length ∧
      (demo_outline_response req).outline.beats.length ≤ 9) ∧
    ((demo_outline_response req).outline.beats.map (fun b => b.beat_id) =
      (List.range (demo_outline_response req).outline.beats.length).map
        (fun i => "B" ++ toString (i + 1))) ∧
    (5 ≤ (demo_outline_response req).detailed.scenes.length ∧
      (demo_outline_response req).detailed.scenes.length ≤ 9) ∧
    ((demo_outline_response req).detailed.scenes.map (fun s => s.scene_id) =
      (List.range (demo_outline_response req).detailed.scenes.length).map
        (fun i => "S" ++ toString (i + 1))) ∧
    ("combat" ∈ ((demo_outline_response req).detailed.scenes.flatMap
        (fun s => s.encounters)).map (fun e => e.type)) ∧
    (∃ t ∈ ((demo_outline_response req).detailed.scenes.flatMap
        (fun s => s.encounters)).map (fun e => e.type), t ≠ "combat") ∧
    ((demo_outline_response lighthouseRequest).detailed.level_progression.map
        (fun s => s.level) = [2, 3]) := by
  refine ⟨⟨?_, ?_⟩, ?_, ⟨?_, ?_⟩, ?_, ?_, ?_, ?_⟩ <;>
    · dsimp only [demo_outline_response, demoOutline, demoDetailed]
      decide

/-- C9: constructing an `OutlineRequest` succeeds exactly when every declared
field constraint holds (concept length, level and session ranges, the four
enumerations), with no relation enforced between the two party levels — in
particular a request with `party_level_end < party_level_start` is
accepted. -/
theorem claim_request_validation :
    (∀ (concept : String) (pls ple : Int) (rs lm tn th : String) (sct : Int)
        (cs : List String) (it : Bool),
      (∃ r, mkOutlineRequest concept pls ple rs lm tn th sct cs it =
          Except.ok r) ↔
        (10 ≤ concept.length ∧ (1 ≤ pls ∧ pls ≤ 20) ∧ (1 ≤ ple ∧ ple ≤ 20) ∧
         rs ∈ rulesetValues ∧ lm ∈ levelingModeValues ∧ tn ∈ toneValues ∧
         th ∈ themeValues ∧ (1 ≤ sct ∧ sct ≤ 20))) ∧
    (∃ r, mkOutlineRequest "A cursed lighthouse traps sailors in a time loop"
        5 2 "5e" "milestone" "mystery" "dungeon" 2 [] true = Except.ok r) := by
  constructor
  · intro concept pls ple rs lm tn th sct cs it
    unfold mkOutlineRequest
    by_cases h : (10 ≤ concept.length ∧ (1 ≤ pls ∧ pls ≤ 20) ∧
        (1 ≤ ple ∧ ple ≤ 20) ∧ rs ∈ rulesetValues ∧ lm ∈ levelingModeValues ∧
        tn ∈ toneValues ∧ th ∈ themeValues ∧ (1 ≤ sct ∧ sct ≤ 20))
    · simp [h]
    · simp [h]
  · exact ⟨_, rfl⟩

end OdysseyMaker
